import Mathlib

/-!
Verification development for `geotiff_to_kmz.py`, a batch converter that
walks a tree of GeoTIFF rasters and produces a mirrored tree of KMZ bundles.

The Python source is shallowly embedded: pure string manipulation
(`os.path.splitext`, `os.path.basename`, `str.lower`, `str.endswith`) is
translated to executable Lean functions on `String`; filesystem paths
produced by `os.walk` / `os.path.join` are modelled as component lists
joined by a slash; coordinates are modelled as `Rat` (the source's
arithmetic on geotransforms is plain field arithmetic); calls into the
external collaborators (GDAL, Pillow, the OS) are modelled as oracle
parameters at exactly the interface the source uses; a raised Python
exception is an `Except.error` carrying the message.
-/

namespace GeotiffToKmz

/-- Python `str.lower()` restricted to the ASCII case mapping used by the
source's extension tests. -/
def pyLower (s : String) : String := ⟨s.data.map Char.toLower⟩

/-- Python `str.endswith(suffix)`: the suffix test on the character list. -/
def endsWithStr (suf s : String) : Bool := suf.data.isSuffixOf s.data

/-- Index of the first dot of a character list, or `none`. -/
def revDotIdx : List Char → Option Nat
  | [] => none
  | c :: cs => if c == '.' then some 0 else (revDotIdx cs).map (· + 1)

/-- Position of the last dot of a character list, as used by
`os.path.splitext` (`p.rfind('.')`): the first dot of the reversed
list, re-indexed from the front. -/
def lastDotPos (cs : List Char) : Option Nat :=
  (revDotIdx cs.reverse).map (fun k => cs.length - 1 - k)

/-- Python `os.path.splitext`, specialised to separator-free inputs (every
call site in the source first takes a basename or uses an `os.walk` file
name, which contain no separator): split at the last dot, except that a
name whose characters before that dot are all dots (a leading-dot name
such as `.tif`) has no extension. -/
def splitext (s : String) : String × String :=
  match lastDotPos s.data with
  | none => (s, "")
  | some i =>
      if (s.data.take i).all (fun c => c == '.') then (s, "")
      else (⟨s.data.take i⟩, ⟨s.data.drop i⟩)

/-- Python `os.path.basename`: the part of the string after the last
slash. -/
def basenameStr (s : String) : String :=
  ⟨((s.data.reverse.takeWhile (fun c => c != '/')).reverse)⟩

/-- Python `os.path.join` for the source's temp-dir joins (the directory
name carries no trailing slash and the member name is relative). -/
def joinStr (d f : String) : String := d ++ "/" ++ f

/-- Python `s[:-n]` for `n ≤ len s`: drop the last `n` characters. -/
def strDropRight (s : String) (n : Nat) : String :=
  ⟨s.data.take (s.data.length - n)⟩

/-- The extension test of `gather_tif_tasks`:
`fname.lower().endswith('.tif') or fname.lower().endswith('.tiff')`. -/
def matchesTif (fname : String) : Bool :=
  endsWithStr ".tif" (pyLower fname) || endsWithStr ".tiff" (pyLower fname)

/-! ## Bounds Resolver (`get_geotiff_bounds`) -/

/-- The six-coefficient GDAL geotransform `ds.GetGeoTransform()`:
`gt0` = origin X, `gt1` = pixel width, `gt3` = origin Y, `gt5` = pixel
height (typically negative); `gt2`/`gt4` are the rotation terms the
source never reads. -/
structure GeoTransform where
  gt0 : Rat
  gt1 : Rat
  gt2 : Rat
  gt3 : Rat
  gt4 : Rat
  gt5 : Rat
deriving DecidableEq

/-- The spatial reference of a dataset, at the interface the source
reads: `osr.SpatialReference(wkt=...).IsProjected()` and
`GetAuthorityCode(None)`. A `GetAuthorityCode` call that returns `None`
or raises (the source catches and stores `None`) is `none` here. -/
structure SpatialRef where
  isProjected : Bool
  authorityCode : Option String
deriving DecidableEq

/-- An opened GDAL dataset, at the interface `get_geotiff_bounds`
reads: geotransform, raster dimensions, projection reference. -/
structure Dataset where
  geoTransform : GeoTransform
  rasterXSize : Nat
  rasterYSize : Nat
  srs : SpatialRef
deriving DecidableEq

/-- Python `max(list)` on rationals (the argument is nonempty at every
call site; the empty case is unreachable). -/
def pyMax : List Rat → Rat
  | [] => 0
  | x :: xs => xs.foldl max x

/-- Python `min(list)` on rationals (nonempty at every call site). -/
def pyMin : List Rat → Rat
  | [] => 0
  | x :: xs => xs.foldl min x

/-- The four corner coordinates of `get_geotiff_bounds`, in native CRS
order (x, y): top-left, top-right, bottom-left, bottom-right, each from
the affine transform `x = gt0 + cols*gt1`, `y = gt3 + rows*gt5`. -/
def cornersOf (ds : Dataset) : List (Rat × Rat) :=
  let gt := ds.geoTransform
  let cols : Rat := ds.rasterXSize
  let rows : Rat := ds.rasterYSize
  [(gt.gt0, gt.gt3),
   (gt.gt0 + cols * gt.gt1, gt.gt3),
   (gt.gt0, gt.gt3 + rows * gt.gt5),
   (gt.gt0 + cols * gt.gt1, gt.gt3 + rows * gt.gt5)]

/-- The `epsg` variable of `get_geotiff_bounds`: the authority code is
consulted only when the reference system is projected. -/
def epsgOf (ds : Dataset) : Option String :=
  if ds.srs.isProjected then ds.srs.authorityCode else none

/-- The first two components of a `TransformPoint` result triple, the
pair the source appends to `latlons` in the EPSG:3857 branch. With
GDAL 3's authority-compliant axis order for EPSG:4326 the triple is
(latitude, longitude, height), so this pair is (lat, lon). -/
def latLonOfTransform (t : Rat × Rat × Rat) : Rat × Rat := (t.1, t.2.1)

/-- The min/max reduction of `get_geotiff_bounds`: read the first
component of every pair as latitude and the second as longitude, and
return (north, south, east, west) = (max lat, min lat, max lon, min
lon). -/
def boundsReduce (latlons : List (Rat × Rat)) : Rat × Rat × Rat × Rat :=
  (pyMax (latlons.map Prod.fst), pyMin (latlons.map Prod.fst),
   pyMax (latlons.map Prod.snd), pyMin (latlons.map Prod.snd))

/-- Embedding of `get_geotiff_bounds` on an opened dataset. `ct` is the collaborator
oracle for `osr.CoordinateTransformation(EPSG 3857, EPSG 4326)
.TransformPoint`, returning a coordinate triple. When the projected
authority code is "3857" every corner is forward-transformed; otherwise
the native (x, y) corner is appended as (y, x). The reduction takes
north/south from the first components and east/west from the second. -/
def get_geotiff_bounds (ct : Rat → Rat → Rat × Rat × Rat) (ds : Dataset) :
    Rat × Rat × Rat × Rat :=
  let corners := cornersOf ds
  let latlons :=
    if epsgOf ds = some "3857" then
      corners.map (fun p => latLonOfTransform (ct p.1 p.2))
    else
      corners.map (fun p => (p.2, p.1))
  (pyMax (latlons.map Prod.fst), pyMin (latlons.map Prod.fst),
   pyMax (latlons.map Prod.snd), pyMin (latlons.map Prod.snd))

/-- A raised Python exception at the `gdal.Open` boundary: either the
interpreter-level `AttributeError` from dereferencing a `None` handle,
or an explicitly raised `Exception` with a message. -/
inductive PyError where
  | attributeError : PyError
  | exception : String → PyError
deriving DecidableEq

/-- Python attribute access on a possibly-`None` object: `None` has no
attributes, so the access raises `AttributeError`; otherwise the
attribute's value is produced. -/
def derefAttr {α β : Type} (o : Option α) (f : α → β) : Except PyError β :=
  match o with
  | none => .error .attributeError
  | some a => .ok (f a)

/-- Embedding of `get_geotiff_bounds` including its `gdal.Open` call: the source
dereferences the opened dataset (`ds.GetGeoTransform()`) with no `None`
check, so a failed open is an unguarded `AttributeError`. `openOracle`
models `gdal.Open`. -/
def get_geotiff_bounds_io (openOracle : String → Option Dataset)
    (ct : Rat → Rat → Rat × Rat × Rat) (tiff_path : String) :
    Except PyError (Rat × Rat × Rat × Rat) :=
  derefAttr (openOracle tiff_path) (get_geotiff_bounds ct)

/-- Embedding of `geotiff_to_png`: it opens the source and, unlike the bounds resolver,
guards against a failed open with a descriptive raised `Exception`;
otherwise it delegates to `gdal.Translate` (the `translate` oracle, with
PNG/ZLEVEL options fixed by the source). -/
def geotiff_to_png (openOracle : String → Option Dataset)
    (translate : String → String → Except PyError Unit)
    (tiff_path png_path : String) : Except PyError Unit :=
  match openOracle tiff_path with
  | none => .error (.exception ("Unable to open input GeoTIFF: " ++ tiff_path))
  | some _ => translate png_path tiff_path

/-! ## Auxiliary-sidecar cleanup and the single-item converter -/

/-- The filesystem as the cleanup stage observes it: `files p` is
`os.path.exists(p)`. -/
structure FsW where
  files : String → Bool

/-- Python `os.remove`, with an oracle `rr` deciding which paths the OS
fails to remove (permission loss, races): a raising remove leaves the
world unchanged and raises `OSError`; a successful remove deletes the
path. -/
def osRemove (rr : String → Bool) (w : FsW) (p : String) :
    Except String FsW :=
  if rr p then .error "OSError"
  else .ok ⟨fun q => if q = p then false else w.files q⟩

/-- Embedding of `cleanup_aux_xml`: delete `tif_path + '.aux.xml'` if present, and,
when the lowercased path ends in `.tif`, also the legacy
`tif_path[:-4] + '.tiff.aux.xml'` variant; each `os.remove` sits in its
own `try`/`except Exception: pass`, so a raising remove is swallowed and
the function never raises (its type is a total world transformer). -/
def cleanup_aux_xml (rr : String → Bool) (w : FsW) (tif_path : String) :
    FsW :=
  let aux_xml := tif_path ++ ".aux.xml"
  let w1 :=
    if w.files aux_xml then
      match osRemove rr w aux_xml with
      | .ok w2 => w2
      | .error _ => w
    else w
  if endsWithStr ".tif" (pyLower tif_path) then
    let alt_aux_xml := strDropRight tif_path 4 ++ ".tiff.aux.xml"
    if w1.files alt_aux_xml then
      match osRemove rr w1 alt_aux_xml with
      | .ok w2 => w2
      | .error _ => w1
    else w1
  else w1

/-- The five pipeline stages of `convert_tif_to_kmz_task` as the task
invokes them, each an oracle over the external world (GDAL, Pillow, the
filesystem): `stage1` = `geotiff_to_png tif png`, `stage2` =
`quantize_png_with_pillow png`, `stage3` = `get_geotiff_bounds tif`,
`stage4` = `generate_kml image_name bounds kml`, `stage5` =
`create_kmz kml png kmz`. Each returns the updated world plus either a
value or a raised exception's message; `tmpdir` is the name the
`tempfile.TemporaryDirectory` context manager yields. -/
structure StageEnv where
  stage1 : String → String → FsW → FsW × Except String Unit
  stage2 : String → FsW → FsW × Except String Unit
  stage3 : String → FsW → FsW × Except String (Rat × Rat × Rat × Rat)
  stage4 : String → Rat × Rat × Rat × Rat → String → FsW →
      FsW × Except String Unit
  stage5 : String → String → String → FsW → FsW × Except String Unit
  tmpdir : String

/-- The `try` block of `convert_tif_to_kmz_task`: stages 1-5 in order,
stopping at the first raised exception, whose message is the block's
error; the world at the raise point is carried out either way. -/
def runStages (env : StageEnv) (tif png kml kmz : String) (w : FsW) :
    FsW × Except String Unit :=
  let r1 := env.stage1 tif png w
  match r1.2 with
  | .error e => (r1.1, .error e)
  | .ok _ =>
    let r2 := env.stage2 png r1.1
    match r2.2 with
    | .error e => (r2.1, .error e)
    | .ok _ =>
      let r3 := env.stage3 tif r2.1
      match r3.2 with
      | .error e => (r3.1, .error e)
      | .ok b =>
        let r4 := env.stage4 (basenameStr png) b kml r3.1
        match r4.2 with
        | .error e => (r4.1, .error e)
        | .ok _ =>
          let r5 := env.stage5 kml png kmz r4.1
          match r5.2 with
          | .error e => (r5.1, .error e)
          | .ok _ => (r5.1, .ok ())

/-- The quantized image's temp path:
`os.path.join(tmpdir, os.path.splitext(os.path.basename(tif))[0] + ".png")`. -/
def taskPng (env : StageEnv) (args : String × String) : String :=
  joinStr env.tmpdir ((splitext (basenameStr args.1)).1 ++ ".png")

/-- The overlay document's temp path: `os.path.join(tmpdir, "doc.kml")`. -/
def taskKml (env : StageEnv) : String :=
  joinStr env.tmpdir "doc.kml"

/-- Embedding of `convert_tif_to_kmz_task`: run stages 1-5 inside `try`, turn an
`ok` outcome into the result `(tif_path, "OK")` and a caught exception
into `(tif_path, "FAILED: <message>")`, then (the `finally` block) run
`cleanup_aux_xml` on the source path whatever the outcome, and return
the result. Returns the result together with the final world. -/
def convert_tif_to_kmz_task (env : StageEnv) (rr : String → Bool)
    (args : String × String) (w : FsW) : (String × String) × FsW :=
  let tif_path := args.1
  let kmz_path := args.2
  let pr := runStages env tif_path (taskPng env args) (taskKml env)
      kmz_path w
  let result :=
    match pr.2 with
    | .ok _ => (tif_path, "OK")
    | .error e => (tif_path, "FAILED: " ++ e)
  (result, cleanup_aux_xml rr pr.1 tif_path)

/-! ## Bundle packager (`create_kmz`) -/

/-- A `zipfile` compression method; the source passes
`zipfile.ZIP_DEFLATED` when creating the archive. -/
inductive ZMethod where
  | deflated
  | stored
deriving DecidableEq

/-- One archive member: its entry name, its compression method, and the
path of the file whose bytes were written under that name. -/
structure ZipEntry where
  arcname : String
  method : ZMethod
  srcPath : String
deriving DecidableEq

/-- An open `zipfile.ZipFile(path, 'w', compression)` handle: the
archive's own filename, the creation-time compression method, and the
members written so far. -/
structure ZipFileSt where
  path : String
  compression : ZMethod
  entries : List ZipEntry
deriving DecidableEq

/-- Python `zf.write(path, arcname)`: append a member compressed with the
archive's creation-time method. -/
def zipWrite (zf : ZipFileSt) (path arcname : String) : ZipFileSt :=
  { zf with entries := zf.entries ++ [⟨arcname, zf.compression, path⟩] }

/-- Embedding of `create_kmz`: open the archive at `kmz_path` with `ZIP_DEFLATED`,
write the KML under the fixed name `doc.kml`, then the image under its
basename. -/
def create_kmz (kml_path image_path kmz_path : String) : ZipFileSt :=
  zipWrite (zipWrite ⟨kmz_path, .deflated, []⟩ kml_path "doc.kml")
    image_path (basenameStr image_path)

/-! ## Tree walker / task planner (`gather_tif_tasks`)

Directory paths are modelled as component lists; `os.path.join` of a
directory and a relative part is list append, and a walk entry is a
`(dirpath, filenames)` pair as yielded by `os.walk` (the loop body never
reads `dirnames`). -/

/-- Python `os.path.relpath(dirpath, root)` for the paths `os.walk(root)`
yields (`root` is always a prefix of `dirpath` there): the remaining
components, or the single component `.` for the root itself. -/
def relpathC (dirpath root : List String) : List String :=
  if dirpath = root then ["."] else dirpath.drop root.length

/-- Python `os.makedirs(p, exist_ok=existOk)` over a set of already-existing
directories: an existing target raises `FileExistsError` only when
`exist_ok` is false; otherwise the directory (and, at this granularity,
its parents) comes into existence. -/
def makedirs (existing : List (List String)) (p : List String)
    (existOk : Bool) : Except String (List (List String)) :=
  if p ∈ existing then
    if existOk then .ok existing else .error "FileExistsError"
  else .ok (p :: existing)

/-- The mirrored output directory for one walk entry:
`os.path.join(root_out, os.path.relpath(dirpath, root_in))`. -/
def mirroredDir (root_in root_out dirpath : List String) : List String :=
  root_out ++ relpathC dirpath root_in

/-- The WorkItems one walk entry contributes: one `(tif_path, kmz_path)`
pair per filename passing `matchesTif`, with
`kmz_path = out_dir ++ [splitext(fname).1 ++ ".kmz"]`. -/
def entryTasks (root_in root_out : List String)
    (e : List String × List String) :
    List (List String × List String) :=
  (e.2.filter matchesTif).map (fun fname =>
    (e.1 ++ [fname],
     mirroredDir root_in root_out e.1 ++ [(splitext fname).1 ++ ".kmz"]))

/-- The body of the `os.walk` loop of `gather_tif_tasks` for one entry:
mirror the directory with `exist_ok=True`, then append this entry's
WorkItems. -/
def gatherStep (root_in root_out : List String)
    (st : List (List String) × List (List String × List String))
    (e : List String × List String) :
    Except String (List (List String) × List (List String × List String)) :=
  match makedirs st.1 (mirroredDir root_in root_out e.1) true with
  | .error err => .error err
  | .ok dirs1 => .ok (dirs1, st.2 ++ entryTasks root_in root_out e)

/-- Embedding of `gather_tif_tasks`: fold the loop body over the walk entries,
starting from the pre-existing directories and an empty task list.
Returns the directory set and the task list (or the first raised
error). -/
def gather_tif_tasks (root_in root_out : List String)
    (entries : List (List String × List String))
    (dirs0 : List (List String)) :
    Except String (List (List String) × List (List String × List String)) :=
  entries.foldlM (gatherStep root_in root_out) (dirs0, [])

/-- The directory set `gather_tif_tasks` ends with, computed directly:
insert each entry's mirrored directory if absent. -/
def gatherDirs (root_in root_out : List String) :
    List (List String × List String) → List (List String) →
    List (List String)
  | [], dirs => dirs
  | e :: rest, dirs =>
      gatherDirs root_in root_out rest
        (if mirroredDir root_in root_out e.1 ∈ dirs then dirs
         else mirroredDir root_in root_out e.1 :: dirs)

/-- The task list `gather_tif_tasks` ends with, computed directly: the
concatenation of every entry's WorkItems in walk order. -/
def gatherTasks (root_in root_out : List String) :
    List (List String × List String) → List (List String × List String)
  | [] => []
  | e :: rest =>
      entryTasks root_in root_out e ++ gatherTasks root_in root_out rest

/-! ## Batch scheduler and CLI driver (`__main__`) -/

/-- One progress line:
`f"[{n}/{total}] {tif_path}: {status}"`. -/
def formatLine (n total : Nat) (res : String × String) : String :=
  "[" ++ toString n ++ "/" ++ toString total ++ "] " ++ res.1 ++ ": "
    ++ res.2

/-- The `for i, future in enumerate(as_completed(...), 1)` loop: `idx`
ranges over submission indices in completion order, `i` is the running
1-based count, and each iteration prints one formatted line from that
future's result. -/
def reportLoop (exec : Nat → String × String) (total : Nat) :
    Nat → List Nat → List String
  | _, [] => []
  | i, idx :: rest =>
      formatLine i total (exec idx) :: reportLoop exec total (i + 1) rest

/-- The batch run over a submitted task list: one future per task
(submission index `k` holds `tasks[k]`), consumed by `as_completed` in
an arbitrary completion order (`order`, a permutation of the submission
indices in the theorems). `poolSize` is the worker-pool size of
`ProcessPoolExecutor`; it influences only which completion orders can
occur, never the collection logic, so the output does not read it. -/
def runBatch (poolSize : Nat) (exec : Nat → String × String)
    (tasks : List (String × String)) (order : List Nat) : List String :=
  reportLoop exec tasks.length 1 order

/-- The per-future result function of the real batch: future `k` runs
`convert_tif_to_kmz_task` on `tasks[k]` inside its own worker, with that
worker's stage behaviour, remove-failure oracle and world. -/
def execOf (envs : Nat → StageEnv) (rrs : Nat → String → Bool)
    (ws : Nat → FsW) (tasks : List (String × String)) (k : Nat) :
    String × String :=
  (convert_tif_to_kmz_task (envs k) (rrs k) (tasks.getD k ("", ""))
    (ws k)).1

/-- Render a component path the way `os.path.join` built it. -/
def renderPath (p : List String) : String := String.intercalate "/" p

/-- Parse a CLI path argument into components. -/
def pathOf (s : String) : List String :=
  (s.data.splitOn '/').map (fun cs => ⟨cs⟩)

/-- The gathered task list as the batch sees it: each component path
rendered the way the source's `os.path.join` chain built it. -/
def renderedTasks (root_in root_out : List String)
    (entries : List (List String × List String)) :
    List (String × String) :=
  (gatherTasks root_in root_out entries).map
    (fun t => (renderPath t.1, renderPath t.2))

/-- The usage message printed on a wrong argument count. -/
def usageLine (argv : List String) : String :=
  "Usage: python " ++ argv.getD 0 "" ++ " input_root_folder output_root_folder"

/-- The `[+] Found N GeoTIFF files to process.` banner. -/
def foundLine (n : Nat) : String :=
  "[+] Found " ++ toString n ++ " GeoTIFF files to process."

/-- The `__main__` block: with an argument count other than 3 (script
name plus two roots) print the usage message and exit 1; otherwise
gather the tasks (an uncaught gather error would abort the interpreter
with a nonzero status), print the banner, run the batch, and fall off
the end of the script with exit status 0. Returns the exit status and
the printed lines. -/
def mainRun (argv : List String)
    (entries : List (List String × List String))
    (dirs0 : List (List String)) (envs : Nat → StageEnv)
    (rrs : Nat → String → Bool) (ws : Nat → FsW) (order : List Nat)
    (poolSize : Nat) : Nat × List String :=
  if argv.length ≠ 3 then (1, [usageLine argv])
  else
    let root_in := pathOf (argv.getD 1 "")
    let root_out := pathOf (argv.getD 2 "")
    match gather_tif_tasks root_in root_out entries dirs0 with
    | .error _ => (1, [])
    | .ok st =>
        let tasks := st.2.map (fun t => (renderPath t.1, renderPath t.2))
        (0, foundLine tasks.length ::
          runBatch poolSize (execOf envs rrs ws tasks) tasks order)

/-- A 10x10 raster with affine origin (0,0) and pixel size (1,-1) in a
geographic (non-projected) reference system. -/
def geoDs10 : Dataset :=
  { geoTransform := ⟨0, 1, 0, 0, 0, -1⟩
    rasterXSize := 10
    rasterYSize := 10
    srs := ⟨false, some "4326"⟩ }

/-- The same raster declared in the identified Web-Mercator projected
system. -/
def mercDs10 : Dataset :=
  { geoTransform := ⟨0, 1, 0, 0, 0, -1⟩
    rasterXSize := 10
    rasterYSize := 10
    srs := ⟨true, some "3857"⟩ }

/-- A stage environment whose every stage succeeds without touching the
world, yielding all-zero bounds, with temp directory `/tmp/t`. -/
def cEnvOk : StageEnv :=
  { stage1 := fun _ _ w => (w, .ok ())
    stage2 := fun _ w => (w, .ok ())
    stage3 := fun _ w => (w, .ok (0, 0, 0, 0))
    stage4 := fun _ _ _ w => (w, .ok ())
    stage5 := fun _ _ _ w => (w, .ok ())
    tmpdir := "/tmp/t" }

/-- The all-success environment with a decode stage that raises. -/
def cEnvFail : StageEnv :=
  { cEnvOk with stage1 := fun _ _ w => (w, .error "boom") }

/-- An empty filesystem. -/
def cW : FsW := ⟨fun _ => false⟩

/-! ## Helper lemmas -/

theorem data_append (a b : String) : (a ++ b).data = a.data ++ b.data := rfl

theorem data_mk (cs : List Char) : (String.mk cs).data = cs := rfl

/-- A slash-free prefix is what `takeWhile` keeps when a slash follows it. -/
theorem takeWhile_no_slash (l r : List Char) (h : ∀ c ∈ l, c ≠ '/') :
    (l ++ '/' :: r).takeWhile (fun c => c != '/') = l := by
  induction l with
  | nil => simp
  | cons c cs ih =>
      have hc : c ≠ '/' := h c (by simp)
      simp only [List.cons_append, List.takeWhile_cons]
      rw [if_pos (by simpa using hc)]
      rw [ih (fun x hx => h x (by simp [hx]))]

/-- If a string contains no slash, `basenameStr` of a join with it returns
it unchanged. -/
theorem basenameStr_joinStr (d f : String)
    (hf : ∀ c ∈ f.data, c ≠ '/') : basenameStr (joinStr d f) = f := by
  unfold basenameStr joinStr
  have h1 : (d ++ "/" ++ f).data = d.data ++ '/' :: f.data := by
    rw [data_append, data_append]; simp [String.data]
  rw [h1]
  have h2 : (d.data ++ '/' :: f.data).reverse
      = f.data.reverse ++ '/' :: d.data.reverse := by
    simp
  rw [h2]
  rw [takeWhile_no_slash _ _ (fun c hc => hf c (List.mem_reverse.mp hc))]
  cases f with
  | mk cs => simp

/-- In the non-projected branch the latitude list is the corners' native
Y coordinates and the longitude list their native X coordinates. -/
theorem bounds_of_nonprojected (ct : Rat → Rat → Rat × Rat × Rat)
    (ds : Dataset) (h : ds.srs.isProjected = false) :
    get_geotiff_bounds ct ds =
      (pyMax ((cornersOf ds).map Prod.snd),
       pyMin ((cornersOf ds).map Prod.snd),
       pyMax ((cornersOf ds).map Prod.fst),
       pyMin ((cornersOf ds).map Prod.fst)) := by
  unfold get_geotiff_bounds
  rw [show epsgOf ds = none from by simp [epsgOf, h]]
  simp [List.map_map, Function.comp_def]

/-! ## Claims C4, C5, C10 -/

/-- C4: for a raster in a geographic (non-projected) reference system the
bounds resolver computes the four corner coordinates via the affine
transform and takes north = max(lat), south = min(lat), east = max(lon),
west = min(lon), latitudes being the corners' native Y values; on the
concrete raster with origin (0,0), pixel size (1,-1) and dimensions
10x10 it returns north=0, south=-10, east=10, west=0. -/
theorem c4_bounds_geographic (ct : Rat → Rat → Rat × Rat × Rat)
    (ds : Dataset) (h : ds.srs.isProjected = false) :
    get_geotiff_bounds ct ds =
      (pyMax ((cornersOf ds).map Prod.snd),
       pyMin ((cornersOf ds).map Prod.snd),
       pyMax ((cornersOf ds).map Prod.fst),
       pyMin ((cornersOf ds).map Prod.fst))
    ∧ get_geotiff_bounds ct geoDs10 = (0, -10, 10, 0) := by
  refine ⟨bounds_of_nonprojected ct ds h, ?_⟩
  rw [bounds_of_nonprojected ct geoDs10 rfl]
  norm_num [geoDs10, cornersOf, pyMax, pyMin, max_def, min_def]

/-- C4 witness: the theorem applied to the concrete 10x10 geographic
raster and a concrete transform oracle. -/
theorem c4_bounds_geographic_witness :
    geoDs10.srs.isProjected = false
    ∧ get_geotiff_bounds (fun x y => (y / 2, x / 2, 0)) geoDs10
        = (0, -10, 10, 0) :=
  ⟨by decide, (c4_bounds_geographic (fun x y => (y / 2, x / 2, 0))
      geoDs10 (by decide)).2⟩

/-- C5: the bounds resolver takes the transforming branch exactly when
the native reference is projected with authority code 3857; in that
branch every corner is forward-transformed through the coordinate
transformation and the pair kept is the transform output's first two
components; in every other case the native corner (x, y) passes through
as (y, x); and both branches feed the same `boundsReduce`, which reads
the first component of every pair as latitude (north/south) and the
second as longitude (east/west). -/
theorem c5_branch_on_authority_code (ct : Rat → Rat → Rat × Rat × Rat)
    (ds : Dataset) :
    ((epsgOf ds = some "3857") ↔
      ds.srs.isProjected = true ∧ ds.srs.authorityCode = some "3857")
    ∧ (epsgOf ds = some "3857" →
        get_geotiff_bounds ct ds =
          boundsReduce ((cornersOf ds).map
            (fun p => latLonOfTransform (ct p.1 p.2))))
    ∧ (epsgOf ds ≠ some "3857" →
        get_geotiff_bounds ct ds =
          boundsReduce ((cornersOf ds).map (fun p => (p.2, p.1)))) := by
  refine ⟨?_, ?_, ?_⟩
  · cases hb : ds.srs.isProjected <;> simp [epsgOf, hb]
  · intro h
    simp only [get_geotiff_bounds, boundsReduce]
    rw [if_pos h]
  · intro h
    simp only [get_geotiff_bounds, boundsReduce]
    rw [if_neg h]

/-- C5 witness: the theorem applied to the concrete Web-Mercator raster
and a concrete transform oracle, taking the transforming branch. -/
theorem c5_branch_on_authority_code_witness :
    epsgOf mercDs10 = some "3857"
    ∧ get_geotiff_bounds (fun x y => (y / 2, x / 2, 0)) mercDs10 =
        boundsReduce ((cornersOf mercDs10).map
          (fun p => latLonOfTransform (p.2 / 2, p.1 / 2, 0))) := by
  refine ⟨by decide, ?_⟩
  exact (c5_branch_on_authority_code (fun x y => (y / 2, x / 2, 0))
    mercDs10).2.1 (by decide)

/-- C10: on a path `gdal.Open` cannot open, the bounds resolver faults
with the interpreter's `AttributeError` from dereferencing the `None`
dataset handle, while the decode stage raises its guarded descriptive
error; the two errors are distinct; and on a successful open the bounds
resolver is well-defined, returning the opened dataset's bounds. -/
theorem c10_bounds_unguarded_open (openOracle : String → Option Dataset)
    (ct : Rat → Rat → Rat × Rat × Rat)
    (translate : String → String → Except PyError Unit)
    (p q : String) :
    (openOracle p = none →
      get_geotiff_bounds_io openOracle ct p = .error .attributeError
      ∧ geotiff_to_png openOracle translate p q =
          .error (.exception ("Unable to open input GeoTIFF: " ++ p)))
    ∧ (∀ ds, openOracle p = some ds →
        get_geotiff_bounds_io openOracle ct p =
          .ok (get_geotiff_bounds ct ds))
    ∧ (∀ msg, PyError.attributeError ≠ PyError.exception msg) := by
  refine ⟨fun h => ?_, fun ds h => ?_, fun msg hx => ?_⟩
  · constructor
    · simp [get_geotiff_bounds_io, derefAttr, h]
    · simp [geotiff_to_png, h]
  · simp [get_geotiff_bounds_io, derefAttr, h]
  · exact PyError.noConfusion hx

/-- C10 witness: the theorem applied to an oracle that fails every open
and to one that opens the concrete geographic raster. -/
theorem c10_bounds_unguarded_open_witness :
    get_geotiff_bounds_io (fun _ => none) (fun x y => (y / 2, x / 2, 0))
        "bad.tif" = .error .attributeError
    ∧ get_geotiff_bounds_io (fun _ => some geoDs10)
        (fun x y => (y / 2, x / 2, 0)) "good.tif" =
        .ok (get_geotiff_bounds (fun x y => (y / 2, x / 2, 0)) geoDs10) :=
  ⟨((c10_bounds_unguarded_open (fun _ => none)
      (fun x y => (y / 2, x / 2, 0)) (fun _ _ => .ok ()) "bad.tif"
      "out.png").1 rfl).1,
   (c10_bounds_unguarded_open (fun _ => some geoDs10)
      (fun x y => (y / 2, x / 2, 0)) (fun _ _ => .ok ()) "good.tif"
      "out.png").2.1 geoDs10 rfl⟩

/-! ## Claims C3, C2 (single-item error handling and isolation) -/

/-- C3: an exception raised at any of stages 1-5 is caught at the item
boundary and reported as a Failure result carrying the stage's message
(success gives the OK result); the sidecar cleanup runs on the
pipeline's final world whatever the outcome; the reported result never
depends on whether cleanup's removes fail; and a cleanup whose every
remove raises still returns normally with the world untouched. -/
theorem c3_item_boundary_and_cleanup (env : StageEnv)
    (rr rr' : String → Bool) (args : String × String) (w : FsW) :
    (∀ e, (runStages env args.1 (taskPng env args) (taskKml env) args.2
        w).2 = .error e →
      (convert_tif_to_kmz_task env rr args w).1 =
        (args.1, "FAILED: " ++ e))
    ∧ ((runStages env args.1 (taskPng env args) (taskKml env) args.2
        w).2 = .ok () →
      (convert_tif_to_kmz_task env rr args w).1 = (args.1, "OK"))
    ∧ (convert_tif_to_kmz_task env rr args w).2 =
        cleanup_aux_xml rr
          (runStages env args.1 (taskPng env args) (taskKml env) args.2
            w).1 args.1
    ∧ (convert_tif_to_kmz_task env rr args w).1 =
        (convert_tif_to_kmz_task env rr' args w).1
    ∧ (∀ w0 t, cleanup_aux_xml (fun _ => true) w0 t = w0) := by
  refine ⟨fun e he => ?_, fun hok => ?_, rfl, rfl, fun w0 t => ?_⟩
  · simp [convert_tif_to_kmz_task, he]
  · simp [convert_tif_to_kmz_task, hok]
  · simp [cleanup_aux_xml, osRemove]

/-- C3 witness: the theorem applied to a worker whose decode stage
raises `boom` on a concrete item. -/
theorem c3_item_boundary_and_cleanup_witness :
    (convert_tif_to_kmz_task cEnvFail (fun _ => false)
        ("a.tif", "a.kmz") cW).1 = ("a.tif", "FAILED: boom")
    ∧ cleanup_aux_xml (fun _ => true) cW "a.tif" = cW :=
  ⟨(c3_item_boundary_and_cleanup cEnvFail (fun _ => false)
      (fun _ => false) ("a.tif", "a.kmz") cW).1 "boom" rfl,
   (c3_item_boundary_and_cleanup cEnvFail (fun _ => false)
      (fun _ => false) ("a.tif", "a.kmz") cW).2.2.2.2 cW "a.tif"⟩

/-- The report loop prints exactly one line per completed future. -/
theorem reportLoop_length (exec : Nat → String × String) (total : Nat) :
    ∀ (i : Nat) (order : List Nat),
      (reportLoop exec total i order).length = order.length := by
  intro i order
  induction order generalizing i with
  | nil => rfl
  | cons idx rest ih => simp [reportLoop, ih]

/-- The line at position `n` of the report loop carries running count
`i0 + n` and that position's future's result. -/
theorem reportLoop_getD (exec : Nat → String × String) (total : Nat) :
    ∀ (order : List Nat) (i0 n : Nat), n < order.length →
      (reportLoop exec total i0 order).getD n "" =
        formatLine (i0 + n) total (exec (order.getD n 0)) := by
  intro order
  induction order with
  | nil => intro i0 n hn; simp at hn
  | cons idx rest ih =>
      intro i0 n hn
      cases n with
      | zero => simp [reportLoop]
      | succ m =>
          have hm : m < rest.length := by simpa using hn
          simp only [reportLoop, List.getD_cons_succ]
          rw [ih (i0 + 1) m hm]
          congr 1
          omega

/-- Lines at positions whose future is not index `i` do not change when
only future `i`'s behaviour changes. -/
theorem reportLoop_congr (exec exec' : Nat → String × String)
    (total : Nat) (i : Nat) (h : ∀ k, k ≠ i → exec k = exec' k) :
    ∀ (order : List Nat) (i0 n : Nat), order.getD n i ≠ i →
      (reportLoop exec total i0 order).getD n "" =
        (reportLoop exec' total i0 order).getD n "" := by
  intro order
  induction order with
  | nil => intro i0 n hn; simp [reportLoop]
  | cons idx rest ih =>
      intro i0 n hn
      cases n with
      | zero =>
          simp only [reportLoop, List.getD_cons_zero]
          rw [h idx (by simpa using hn)]
      | succ m =>
          simp only [reportLoop, List.getD_cons_succ]
          exact ih (i0 + 1) m (by simpa using hn)

/-! ## Claim C2 -/

/-- C2: a fault raised while a worker processes an item is caught and
becomes a Failure result for that item alone (the result names the
item's own source path); the scheduler loop still reports one line per
submitted item for any completion order; and changing one item's worker
behaviour (including making it fault) changes no reported line at any
position belonging to another item. -/
theorem c2_worker_fault_isolation (env : StageEnv) (rr : String → Bool)
    (args : String × String) (w : FsW) (e : String)
    (p : Nat) (envs envs' : Nat → StageEnv)
    (rrs rrs' : Nat → String → Bool) (ws ws' : Nat → FsW)
    (tasks : List (String × String)) (order : List Nat) (i : Nat) :
    ((runStages env args.1 (taskPng env args) (taskKml env) args.2
        w).2 = .error e →
      (convert_tif_to_kmz_task env rr args w).1 =
        (args.1, "FAILED: " ++ e))
    ∧ (order.Perm (List.range tasks.length) →
        (runBatch p (execOf envs rrs ws tasks) tasks order).length =
          tasks.length)
    ∧ ((∀ k, k ≠ i → envs k = envs' k ∧ rrs k = rrs' k ∧ ws k = ws' k) →
        ∀ n, order.getD n i ≠ i →
          (runBatch p (execOf envs rrs ws tasks) tasks order).getD n ""
          = (runBatch p (execOf envs' rrs' ws' tasks) tasks
              order).getD n "") := by
  refine ⟨fun he => ?_, fun hperm => ?_, fun hagree n hn => ?_⟩
  · simp [convert_tif_to_kmz_task, he]
  · rw [runBatch, reportLoop_length]
    simpa using hperm.length_eq
  · refine reportLoop_congr _ _ _ i (fun k hk => ?_) order 1 n hn
    have := hagree k hk
    simp [execOf, this.1, this.2.1, this.2.2]

/-- C2 witness: a two-item batch in which worker 0's decode faults;
the batch still reports two lines, and the line of the completing-first
future 1 is identical to its line in the all-success batch. -/
theorem c2_worker_fault_isolation_witness :
    (convert_tif_to_kmz_task cEnvFail (fun _ => false)
        ("a.tif", "a.kmz") cW).1 = ("a.tif", "FAILED: boom")
    ∧ (runBatch 2 (execOf (fun k => if k = 0 then cEnvFail else cEnvOk)
        (fun _ _ => false) (fun _ => cW)
        [("a.tif", "a.kmz"), ("b.tif", "b.kmz")])
        [("a.tif", "a.kmz"), ("b.tif", "b.kmz")] [1, 0]).length = 2
    ∧ (runBatch 2 (execOf (fun k => if k = 0 then cEnvFail else cEnvOk)
        (fun _ _ => false) (fun _ => cW)
        [("a.tif", "a.kmz"), ("b.tif", "b.kmz")])
        [("a.tif", "a.kmz"), ("b.tif", "b.kmz")] [1, 0]).getD 0 ""
      = (runBatch 2 (execOf (fun _ => cEnvOk)
        (fun _ _ => false) (fun _ => cW)
        [("a.tif", "a.kmz"), ("b.tif", "b.kmz")])
        [("a.tif", "a.kmz"), ("b.tif", "b.kmz")] [1, 0]).getD 0 "" := by
  refine ⟨?_, ?_, ?_⟩
  · exact (c2_worker_fault_isolation cEnvFail (fun _ => false)
      ("a.tif", "a.kmz") cW "boom" 2 (fun _ => cEnvOk) (fun _ => cEnvOk)
      (fun _ _ => false) (fun _ _ => false) (fun _ => cW) (fun _ => cW)
      [] [] 0).1 rfl
  · exact (c2_worker_fault_isolation cEnvFail (fun _ => false)
      ("a.tif", "a.kmz") cW "boom" 2
      (fun k => if k = 0 then cEnvFail else cEnvOk)
      (fun k => if k = 0 then cEnvFail else cEnvOk)
      (fun _ _ => false) (fun _ _ => false) (fun _ => cW) (fun _ => cW)
      [("a.tif", "a.kmz"), ("b.tif", "b.kmz")] [1, 0] 0).2.1
      (by decide)
  · exact (c2_worker_fault_isolation cEnvFail (fun _ => false)
      ("a.tif", "a.kmz") cW "boom" 2
      (fun k => if k = 0 then cEnvFail else cEnvOk) (fun _ => cEnvOk)
      (fun _ _ => false) (fun _ _ => false) (fun _ => cW) (fun _ => cW)
      [("a.tif", "a.kmz"), ("b.tif", "b.kmz")] [1, 0] 0).2.2
      (fun k hk => ⟨by simp [hk], rfl, rfl⟩) 0 (by decide)

/-! ## Claim C1 -/

/-- C1: for any worker-pool size at least 1 and any completion order (a
permutation of the submission indices), the batch reports exactly one
line per WorkItem; the line at 0-based position `n` is the formatted
`[<n+1>/<total>] <source_path>: <status>` line of the future completing
at that position; and the multiset of reported per-item results is
exactly one result per submitted item. -/
theorem c1_batch_counts_and_lines (p : Nat) (hp : 1 ≤ p)
    (envs : Nat → StageEnv) (rrs : Nat → String → Bool)
    (ws : Nat → FsW) (tasks : List (String × String))
    (order : List Nat)
    (hperm : order.Perm (List.range tasks.length)) :
    (runBatch p (execOf envs rrs ws tasks) tasks order).length =
      tasks.length
    ∧ (∀ n, n < tasks.length →
        (runBatch p (execOf envs rrs ws tasks) tasks order).getD n "" =
          formatLine (n + 1) tasks.length
            (execOf envs rrs ws tasks (order.getD n 0)))
    ∧ (order.map (execOf envs rrs ws tasks)).Perm
        ((List.range tasks.length).map (execOf envs rrs ws tasks)) := by
  have hlen : order.length = tasks.length := by
    simpa using hperm.length_eq
  refine ⟨?_, fun n hn => ?_, hperm.map _⟩
  · rw [runBatch, reportLoop_length, hlen]
  · rw [runBatch, reportLoop_getD _ _ _ _ _ (hlen ▸ hn)]
    congr 1
    omega

/-- C1 witness: the two-item batch with completion order (1, 0) under a
pool of size 1 reports two lines, line 0 counting 1 of 2 for item 1. -/
theorem c1_batch_counts_and_lines_witness :
    (runBatch 1 (execOf (fun _ => cEnvOk) (fun _ _ => false)
        (fun _ => cW) [("a.tif", "a.kmz"), ("b.tif", "b.kmz")])
        [("a.tif", "a.kmz"), ("b.tif", "b.kmz")] [1, 0]).length = 2
    ∧ (runBatch 1 (execOf (fun _ => cEnvOk) (fun _ _ => false)
        (fun _ => cW) [("a.tif", "a.kmz"), ("b.tif", "b.kmz")])
        [("a.tif", "a.kmz"), ("b.tif", "b.kmz")] [1, 0]).getD 0 "" =
      formatLine 1 2 (execOf (fun _ => cEnvOk) (fun _ _ => false)
        (fun _ => cW) [("a.tif", "a.kmz"), ("b.tif", "b.kmz")] 1) := by
  have h := c1_batch_counts_and_lines 1 (by decide) (fun _ => cEnvOk)
    (fun _ _ => false) (fun _ => cW)
    [("a.tif", "a.kmz"), ("b.tif", "b.kmz")] [1, 0] (by decide)
  exact ⟨h.1, h.2.1 0 (by decide)⟩

/-- A basename never contains a slash. -/
theorem basenameStr_no_slash (s : String) :
    ∀ c ∈ (basenameStr s).data, c ≠ '/' := by
  intro c hc
  unfold basenameStr at hc
  rw [data_mk, List.mem_reverse] at hc
  simpa using List.mem_takeWhile_imp hc

/-- The stem `splitext` returns is made of characters of its input. -/
theorem splitext_fst_mem (s : String) :
    ∀ c ∈ ((splitext s).1).data, c ∈ s.data := by
  intro c hc
  unfold splitext at hc
  split at hc
  · exact hc
  · split at hc
    · exact hc
    · exact List.take_subset _ _ hc

/-- The archived image's entry name is the base name of the source with
the `.png` extension of the recompressed image. -/
theorem taskPng_basename (env : StageEnv) (args : String × String) :
    basenameStr (taskPng env args) =
      (splitext (basenameStr args.1)).1 ++ ".png" := by
  unfold taskPng
  refine basenameStr_joinStr _ _ ?_
  intro c hc
  rw [data_append] at hc
  rcases List.mem_append.mp hc with h1 | h2
  · exact basenameStr_no_slash args.1 c (splitext_fst_mem _ c h1)
  · have hp : (".png" : String).data = ['.', 'p', 'n', 'g'] := rfl
    rw [hp] at h2
    simp only [List.mem_cons, List.not_mem_nil, or_false] at h2
    rcases h2 with h | h | h | h <;> subst h <;> decide

/-! ## Claim C7 -/

/-- C7: every produced bundle archive holds exactly the two entries the
source writes, in order: the overlay document under the fixed canonical
name `doc.kml` and the quantized image under its own base filename,
both carrying the archive's `ZIP_DEFLATED` method; and the image file
the task archives is named after the source's base name with the `.png`
extension. -/
theorem c7_bundle_two_deflated_entries
    (kml_path image_path kmz_path : String) (env : StageEnv)
    (args : String × String) :
    (create_kmz kml_path image_path kmz_path).entries =
      [⟨"doc.kml", ZMethod.deflated, kml_path⟩,
       ⟨basenameStr image_path, ZMethod.deflated, image_path⟩]
    ∧ (create_kmz kml_path image_path kmz_path).entries.length = 2
    ∧ (∀ z ∈ (create_kmz kml_path image_path kmz_path).entries,
        z.method = ZMethod.deflated)
    ∧ basenameStr (taskPng env args) =
        (splitext (basenameStr args.1)).1 ++ ".png" := by
  refine ⟨rfl, rfl, fun z hz => ?_, taskPng_basename env args⟩
  have he : (create_kmz kml_path image_path kmz_path).entries =
      [⟨"doc.kml", ZMethod.deflated, kml_path⟩,
       ⟨basenameStr image_path, ZMethod.deflated, image_path⟩] := rfl
  rw [he] at hz
  simp only [List.mem_cons, List.not_mem_nil, or_false] at hz
  rcases hz with h | h <;> subst h <;> rfl

/-- C7 witness: the archive built from concrete paths, its second entry
evaluated. -/
theorem c7_bundle_two_deflated_entries_witness :
    (create_kmz "/tmp/t/doc.kml" "/tmp/t/img.png" "out/img.kmz").entries
      = [⟨"doc.kml", ZMethod.deflated, "/tmp/t/doc.kml"⟩,
         ⟨"img.png", ZMethod.deflated, "/tmp/t/img.png"⟩]
    ∧ basenameStr (taskPng cEnvOk ("maps/a.tif", "out/a.kmz")) =
        "a.png" := by
  have h := c7_bundle_two_deflated_entries "/tmp/t/doc.kml"
    "/tmp/t/img.png" "out/img.kmz" cEnvOk ("maps/a.tif", "out/a.kmz")
  refine ⟨?_, ?_⟩
  · rw [h.1]; rfl
  · rw [h.2.2.2]; rfl

/-- With `exist_ok=True`, `os.makedirs` never raises: it returns the
directory set unchanged when the target already exists and inserts it
otherwise. -/
theorem makedirs_exist_ok (dirs : List (List String)) (p : List String) :
    makedirs dirs p true = .ok (if p ∈ dirs then dirs else p :: dirs) := by
  unfold makedirs
  by_cases h : p ∈ dirs <;> simp [h]

/-- The walk fold of `gather_tif_tasks` never errors and computes the
direct directory-set and task-list recursions, from any starting
state. -/
theorem gather_foldlM (root_in root_out : List String)
    (entries : List (List String × List String)) :
    ∀ (dirs0 : List (List String))
      (acc : List (List String × List String)),
      List.foldlM (gatherStep root_in root_out) (dirs0, acc) entries =
        .ok (gatherDirs root_in root_out entries dirs0,
             acc ++ gatherTasks root_in root_out entries) := by
  induction entries with
  | nil =>
      intro dirs0 acc
      simp only [List.foldlM_nil, gatherDirs, gatherTasks,
        List.append_nil]
      rfl
  | cons e rest ih =>
      intro dirs0 acc
      have hstep : gatherStep root_in root_out (dirs0, acc) e =
          .ok ((if mirroredDir root_in root_out e.1 ∈ dirs0 then dirs0
                else mirroredDir root_in root_out e.1 :: dirs0),
               acc ++ entryTasks root_in root_out e) := by
        unfold gatherStep
        rw [makedirs_exist_ok]
      have hbind : ∀ {α β : Type} (x : α) (f : α → Except String β),
          (Except.ok x >>= f) = f x := fun x f => rfl
      rw [List.foldlM_cons, hstep, hbind, ih]
      simp [gatherDirs, gatherTasks]

/-- The walker `gather_tif_tasks` always succeeds, whatever directories already
exist, returning the mirrored directory set and the task list. -/
theorem gather_ok (root_in root_out : List String)
    (entries : List (List String × List String))
    (dirs0 : List (List String)) :
    gather_tif_tasks root_in root_out entries dirs0 =
      .ok (gatherDirs root_in root_out entries dirs0,
           gatherTasks root_in root_out entries) := by
  unfold gather_tif_tasks
  rw [gather_foldlM]
  simp

/-- Directories present before the walk survive it. -/
theorem gatherDirs_mono (root_in root_out : List String) :
    ∀ (entries : List (List String × List String))
      (dirs : List (List String)) (d : List String), d ∈ dirs →
      d ∈ gatherDirs root_in root_out entries dirs := by
  intro entries
  induction entries with
  | nil => intro dirs d hd; exact hd
  | cons e rest ih =>
      intro dirs d hd
      unfold gatherDirs
      apply ih
      by_cases h : mirroredDir root_in root_out e.1 ∈ dirs
      · rwa [if_pos h]
      · rw [if_neg h]; exact List.mem_cons_of_mem _ hd

/-- Every visited directory's mirror is in the final directory set. -/
theorem mem_gatherDirs (root_in root_out : List String) :
    ∀ (entries : List (List String × List String))
      (e : List String × List String), e ∈ entries →
      ∀ dirs : List (List String),
        mirroredDir root_in root_out e.1 ∈
          gatherDirs root_in root_out entries dirs := by
  intro entries
  induction entries with
  | nil => intro e he; exact absurd he (List.not_mem_nil e)
  | cons e0 rest ih =>
      intro e he dirs
      rcases List.mem_cons.mp he with h | h
      · subst h
        unfold gatherDirs
        apply gatherDirs_mono
        by_cases hm : mirroredDir root_in root_out e.1 ∈ dirs
        · rw [if_pos hm]; exact hm
        · rw [if_neg hm]; exact List.mem_cons_self _ _
      · unfold gatherDirs
        exact ih e h _

/-- Python `os.path.relpath` inverts the walk's join: a proper subdirectory's
path relative to the root is its component suffix. -/
theorem relpathC_append (root rel : List String) (h : rel ≠ []) :
    relpathC (root ++ rel) root = rel := by
  have hne : root ++ rel ≠ root := by
    intro hc
    have hlen := congrArg List.length hc
    simp at hlen
    exact h (by simpa using hlen)
  unfold relpathC
  rw [if_neg hne, List.drop_left]

/-- Applying `revDotIdx` to a dot preceded by non-dots finds that dot. -/
theorem revDotIdx_no_dot_append (pre : List Char)
    (hpre : ∀ c ∈ pre, (c == '.') = false) (suf : List Char) :
    revDotIdx (pre ++ '.' :: suf) = some pre.length := by
  induction pre with
  | nil => simp [revDotIdx]
  | cons c cs ih =>
      have hc := hpre c (List.mem_cons_self c cs)
      simp only [List.cons_append, revDotIdx, hc, Bool.false_eq_true,
        if_false, List.append_eq]
      rw [ih (fun x hx => hpre x (List.mem_cons_of_mem c hx))]
      simp

/-- Python `os.path.splitext` splits a stem that is not all dots from a
dot-free extension appended after a dot. -/
theorem splitext_stem_ext (stem : String) (ext : List Char)
    (hext : ∀ c ∈ ext, (c == '.') = false)
    (h : (stem.data.all (fun c => c == '.')) = false) :
    splitext ⟨stem.data ++ '.' :: ext⟩ = (stem, ⟨'.' :: ext⟩) := by
  have hlast : lastDotPos (stem.data ++ '.' :: ext) =
      some stem.data.length := by
    unfold lastDotPos
    have hrev : (stem.data ++ '.' :: ext).reverse =
        ext.reverse ++ '.' :: stem.data.reverse := by simp
    rw [hrev, revDotIdx_no_dot_append ext.reverse
      (fun c hc => hext c (List.mem_reverse.mp hc)) _]
    simp only [Option.map_some']
    congr 1
    simp only [List.length_append, List.length_cons,
      List.length_reverse]
    omega
  unfold splitext
  simp only [data_mk, hlast]
  have htake : (stem.data ++ '.' :: ext).take stem.data.length =
      stem.data := List.take_left stem.data ('.' :: ext)
  have hdrop : (stem.data ++ '.' :: ext).drop stem.data.length =
      '.' :: ext := List.drop_left stem.data ('.' :: ext)
  rw [htake, hdrop, if_neg (by simp [h])]

/-- The walker emits one task per matching filename of each entry. -/
theorem gatherTasks_length (root_in root_out : List String) :
    ∀ entries : List (List String × List String),
      (gatherTasks root_in root_out entries).length =
        (entries.map (fun e => (e.2.filter matchesTif).length)).sum := by
  intro entries
  induction entries with
  | nil => rfl
  | cons e rest ih => simp [gatherTasks, entryTasks, ih]

/-! ## Claim C6 -/

/-- C6: the walk never errors whatever directories already exist
(creation is idempotent via `exist_ok`), every visited directory's
mirror under the output root is in the final directory set even when
the directory holds no convertible file, a proper subdirectory's mirror
sits at the same relative component path, the task list holds exactly
one WorkItem per file matching the case-insensitive `.tif`/`.tiff`
suffix test, and for a stem that is not all dots the destination name
is the stem with the extension replaced by `.kmz`. -/
theorem c6_mirror_idempotent_and_tasks (root_in root_out : List String)
    (entries : List (List String × List String))
    (dirs0 : List (List String)) :
    gather_tif_tasks root_in root_out entries dirs0 =
      .ok (gatherDirs root_in root_out entries dirs0,
           gatherTasks root_in root_out entries)
    ∧ (∀ e ∈ entries, mirroredDir root_in root_out e.1 ∈
        gatherDirs root_in root_out entries dirs0)
    ∧ (∀ rel : List String, rel ≠ [] →
        relpathC (root_in ++ rel) root_in = rel)
    ∧ (gatherTasks root_in root_out entries).length =
        (entries.map (fun e => (e.2.filter matchesTif).length)).sum
    ∧ (∀ stem : String, (stem.data.all (fun c => c == '.')) = false →
        (splitext (stem ++ ".tif")).1 ++ ".kmz" = stem ++ ".kmz"
        ∧ (splitext (stem ++ ".tiff")).1 ++ ".kmz" = stem ++ ".kmz") := by
  refine ⟨gather_ok root_in root_out entries dirs0,
    fun e he => mem_gatherDirs root_in root_out entries e he dirs0,
    fun rel hrel => relpathC_append root_in rel hrel,
    gatherTasks_length root_in root_out entries,
    fun stem hstem => ⟨?_, ?_⟩⟩
  · rw [show splitext (stem ++ ".tif") = (stem, ".tif") from
      splitext_stem_ext stem ['t', 'i', 'f'] (by decide) hstem]
  · rw [show splitext (stem ++ ".tiff") = (stem, ".tiff") from
      splitext_stem_ext stem ['t', 'i', 'f', 'f'] (by decide) hstem]

/-- C6 witness: a concrete walk with one matching file, one empty
subdirectory, and the subdirectory's mirror already existing. -/
theorem c6_mirror_idempotent_and_tasks_witness :
    gather_tif_tasks ["in"] ["out"]
        [(["in"], ["a.tif", "b.txt"]), (["in", "A"], [])]
        [["out", "A"]] =
      .ok (gatherDirs ["in"] ["out"]
             [(["in"], ["a.tif", "b.txt"]), (["in", "A"], [])]
             [["out", "A"]],
           gatherTasks ["in"] ["out"]
             [(["in"], ["a.tif", "b.txt"]), (["in", "A"], [])])
    ∧ mirroredDir ["in"] ["out"] ["in", "A"] ∈
        gatherDirs ["in"] ["out"]
          [(["in"], ["a.tif", "b.txt"]), (["in", "A"], [])]
          [["out", "A"]]
    ∧ relpathC (["in"] ++ ["A"]) ["in"] = ["A"]
    ∧ (splitext ("photo" ++ ".tif")).1 ++ ".kmz" = "photo" ++ ".kmz" :=
  ⟨(c6_mirror_idempotent_and_tasks ["in"] ["out"]
      [(["in"], ["a.tif", "b.txt"]), (["in", "A"], [])]
      [["out", "A"]]).1,
   (c6_mirror_idempotent_and_tasks ["in"] ["out"]
      [(["in"], ["a.tif", "b.txt"]), (["in", "A"], [])]
      [["out", "A"]]).2.1 (["in", "A"], []) (by decide),
   (c6_mirror_idempotent_and_tasks ["in"] ["out"]
      [(["in"], ["a.tif", "b.txt"]), (["in", "A"], [])]
      [["out", "A"]]).2.2.1 ["A"] (by decide),
   ((c6_mirror_idempotent_and_tasks ["in"] ["out"]
      [(["in"], ["a.tif", "b.txt"]), (["in", "A"], [])]
      [["out", "A"]]).2.2.2.2 "photo" (by decide)).1⟩

/-! ## Claim C9 -/

/-- C9: a file named exactly `.tif` or `.tiff` passes the walker's
suffix test, but `os.path.splitext` treats the leading-dot name as
having no extension, so the emitted destination appends `.kmz` to the
full name instead of replacing the extension: a concrete walk maps
`sub/.tif` to `sub/.tif.kmz`, which differs from the `.kmz` a
replacement would give. -/
theorem c9_dotfile_destination_appends :
    matchesTif ".tif" = true
    ∧ matchesTif ".tiff" = true
    ∧ (splitext ".tif").1 ++ ".kmz" = ".tif.kmz"
    ∧ (splitext ".tiff").1 ++ ".kmz" = ".tiff.kmz"
    ∧ gather_tif_tasks ["in"] ["out"] [(["in", "sub"], [".tif"])] [] =
        .ok ([["out", "sub"]],
             [(["in", "sub", ".tif"], ["out", "sub", ".tif.kmz"])])
    ∧ ".tif.kmz" ≠ (".kmz" : String) :=
  ⟨rfl, rfl, rfl, rfl, rfl, by decide⟩

/-! ## Claim C8 -/

/-- C8: invoked with an argument count other than three (script name
plus two roots) the program prints the usage message and exits with
code 1; with exactly two positional arguments it exits with code 0
after printing the banner and one line per batch item — the worker
behaviours (hence any Failure results among them) never reach the exit
code. -/
theorem c8_cli_arity_and_exit_codes (argv : List String)
    (entries : List (List String × List String))
    (dirs0 : List (List String)) (envs : Nat → StageEnv)
    (rrs : Nat → String → Bool) (ws : Nat → FsW) (order : List Nat)
    (poolSize : Nat) :
    (argv.length ≠ 3 →
      mainRun argv entries dirs0 envs rrs ws order poolSize =
        (1, [usageLine argv]))
    ∧ (argv.length = 3 →
      mainRun argv entries dirs0 envs rrs ws order poolSize =
        (0, foundLine (renderedTasks (pathOf (argv.getD 1 ""))
              (pathOf (argv.getD 2 "")) entries).length ::
          runBatch poolSize
            (execOf envs rrs ws
              (renderedTasks (pathOf (argv.getD 1 ""))
                (pathOf (argv.getD 2 "")) entries))
            (renderedTasks (pathOf (argv.getD 1 ""))
              (pathOf (argv.getD 2 "")) entries) order)) := by
  constructor
  · intro h
    unfold mainRun
    rw [if_pos h]
  · intro h
    unfold mainRun
    rw [if_neg (by simp [h])]
    simp only [gather_ok]
    rfl

/-- C8 witness: a one-argument call exits 1 with the usage message; a
two-argument call over a one-file tree exits 0. -/
theorem c8_cli_arity_and_exit_codes_witness :
    mainRun ["prog"] [] [] (fun _ => cEnvOk) (fun _ _ => false)
        (fun _ => cW) [] 1 = (1, [usageLine ["prog"]])
    ∧ (mainRun ["prog", "in", "out"] [(["in"], ["a.tif"])] []
        (fun _ => cEnvOk) (fun _ _ => false) (fun _ => cW) [0] 1).1
      = 0 :=
  ⟨(c8_cli_arity_and_exit_codes ["prog"] [] [] (fun _ => cEnvOk)
      (fun _ _ => false) (fun _ => cW) [] 1).1 (by decide),
   by rw [(c8_cli_arity_and_exit_codes ["prog", "in", "out"]
      [(["in"], ["a.tif"])] [] (fun _ => cEnvOk) (fun _ _ => false)
      (fun _ => cW) [0] 1).2 rfl]⟩

end GeotiffToKmz
